import Mathlib

/-!
Verification of the hook-dispatch engine implemented in
`src/nrf_802154_core_hooks.c` of the nRF IEEE 802.15.4 radio driver.

The engine owns nine channels.  Each channel is a `static const` array of
function pointers assembled at build time from the enabled feature modules
(`#if NRF_802154_*_ENABLED` conditional inclusion), mostly terminated by a
`NULL` sentinel, and a dispatch loop that walks the array in order, stops at
the first `NULL` entry, and either AND-short-circuits boolean hook results
(`terminate`, `pre_transmission`, `tx_failed`, `tx_started`) or broadcasts to
every pre-`NULL` entry (`transmission_ready`, `transmitted`, `rx_started`,
`rx_ack_started`, `prio_changed`).

The embedding models each hook array as a `List (Option HookFn)` whose
contents follow the C initializers literally (conditional inclusion per
feature flag, `NULL` sentinel as `none`), and the two dispatch-loop shapes as
recursive functions that in addition record the trace of performed calls,
each call as the pair of the invoked hook and the argument tuple it received.
Hook behaviour is external (hooks live in the feature modules, outside this
file's scope), so boolean dispatch is parameterised by an oracle giving each
hook's return value for an argument tuple.
-/

namespace NrfCoreHooks

/-- Build-time feature-flag configuration: one flag per optional module,
mirroring `NRF_802154_CSMA_CA_ENABLED`, `NRF_802154_ACK_TIMEOUT_ENABLED`,
`NRF_802154_DELAYED_TRX_ENABLED` and `NRF_802154_IFS_ENABLED` in
`nrf_802154_config.h`. -/
structure Config where
  csma_ca_enabled : Bool
  ack_timeout_enabled : Bool
  delayed_trx_enabled : Bool
  ifs_enabled : Bool
deriving DecidableEq, Repr

/-- The hook functions that can populate the dispatch tables, one constructor
per function name referenced by the initializers in
`nrf_802154_core_hooks.c`. -/
inductive HookFn where
  | nrf_802154_csma_ca_abort
  | nrf_802154_ack_timeout_abort
  | nrf_802154_delayed_trx_abort
  | nrf_802154_ifs_abort
  | nrf_802154_tx_timeout_abort
  | nrf_802154_csma_ca_pretransmission
  | nrf_802154_ifs_pretransmission
  | nrf_802154_tx_timeout_transmission_ready
  | nrf_802154_ack_timeout_transmitted_hook
  | nrf_802154_ifs_transmitted_hook
  | nrf_802154_csma_ca_tx_failed_hook
  | nrf_802154_ack_timeout_tx_failed_hook
  | nrf_802154_csma_ca_tx_started_hook
  | nrf_802154_ack_timeout_tx_started_hook
  | nrf_802154_delayed_trx_rx_started_hook
  | nrf_802154_ack_timeout_rx_ack_started_hook
  | nrf_802154_csma_ca_prio_changed_hook
deriving DecidableEq, Repr

/-- The five feature modules that provide hooks. -/
inductive FeatureModule where
  | csma_ca
  | ack_timeout
  | delayed_trx
  | ifs
  | tx_timeout
deriving DecidableEq, Repr

/-- The module each hook function belongs to (read off the
`mac_features/nrf_802154_*` header that declares it). -/
def moduleOf : HookFn → FeatureModule
  | .nrf_802154_csma_ca_abort => .csma_ca
  | .nrf_802154_ack_timeout_abort => .ack_timeout
  | .nrf_802154_delayed_trx_abort => .delayed_trx
  | .nrf_802154_ifs_abort => .ifs
  | .nrf_802154_tx_timeout_abort => .tx_timeout
  | .nrf_802154_csma_ca_pretransmission => .csma_ca
  | .nrf_802154_ifs_pretransmission => .ifs
  | .nrf_802154_tx_timeout_transmission_ready => .tx_timeout
  | .nrf_802154_ack_timeout_transmitted_hook => .ack_timeout
  | .nrf_802154_ifs_transmitted_hook => .ifs
  | .nrf_802154_csma_ca_tx_failed_hook => .csma_ca
  | .nrf_802154_ack_timeout_tx_failed_hook => .ack_timeout
  | .nrf_802154_csma_ca_tx_started_hook => .csma_ca
  | .nrf_802154_ack_timeout_tx_started_hook => .ack_timeout
  | .nrf_802154_delayed_trx_rx_started_hook => .delayed_trx
  | .nrf_802154_ack_timeout_rx_ack_started_hook => .ack_timeout
  | .nrf_802154_csma_ca_prio_changed_hook => .csma_ca

/-- Position of a module in the single global priority order of the spec:
CSMA/CA, then ACK-timeout, then delayed-TRX, then IFS, then the base
TX-timeout guard. -/
def FeatureModule.priority : FeatureModule → Nat
  | .csma_ca => 0
  | .ack_timeout => 1
  | .delayed_trx => 2
  | .ifs => 3
  | .tx_timeout => 4

/-- Whether a module contributes hooks under a given configuration; the base
TX-timeout guard is unconditional. -/
def enabledIn (c : Config) : FeatureModule → Bool
  | .csma_ca => c.csma_ca_enabled
  | .ack_timeout => c.ack_timeout_enabled
  | .delayed_trx => c.delayed_trx_enabled
  | .ifs => c.ifs_enabled
  | .tx_timeout => true

/-- Priority of a hook function, via its module. -/
def hookPriority (h : HookFn) : Nat :=
  (moduleOf h).priority

/-! ## The static hook tables

Each table follows the C initializer literally: an entry is present exactly
when its `#if` guard is satisfied by the configuration, the final `NULL`
sentinel of the C array is `none`, and entries keep the C order. -/

/-- Table `m_abort_hooks` (no `NULL` sentinel in the C array; the
unconditional `nrf_802154_tx_timeout_abort` is its last entry). -/
def m_abort_hooks (c : Config) : List (Option HookFn) :=
  (if c.csma_ca_enabled then [some .nrf_802154_csma_ca_abort] else []) ++
  (if c.ack_timeout_enabled then [some .nrf_802154_ack_timeout_abort] else []) ++
  (if c.delayed_trx_enabled then [some .nrf_802154_delayed_trx_abort] else []) ++
  (if c.ifs_enabled then [some .nrf_802154_ifs_abort] else []) ++
  [some .nrf_802154_tx_timeout_abort]

/-- Table `m_pre_transmission_hooks`. -/
def m_pre_transmission_hooks (c : Config) : List (Option HookFn) :=
  (if c.csma_ca_enabled then [some .nrf_802154_csma_ca_pretransmission] else []) ++
  (if c.ifs_enabled then [some .nrf_802154_ifs_pretransmission] else []) ++
  [none]

/-- Table `m_transmission_ready_hooks` (configuration independent: its single
entry has no `#if` guard, and there is no `NULL` sentinel). -/
def m_transmission_ready_hooks : List (Option HookFn) :=
  [some .nrf_802154_tx_timeout_transmission_ready]

/-- Table `m_transmitted_hooks`. -/
def m_transmitted_hooks (c : Config) : List (Option HookFn) :=
  (if c.ack_timeout_enabled then [some .nrf_802154_ack_timeout_transmitted_hook] else []) ++
  (if c.ifs_enabled then [some .nrf_802154_ifs_transmitted_hook] else []) ++
  [none]

/-- Table `m_tx_failed_hooks`. -/
def m_tx_failed_hooks (c : Config) : List (Option HookFn) :=
  (if c.csma_ca_enabled then [some .nrf_802154_csma_ca_tx_failed_hook] else []) ++
  (if c.ack_timeout_enabled then [some .nrf_802154_ack_timeout_tx_failed_hook] else []) ++
  [none]

/-- Table `m_tx_started_hooks`. -/
def m_tx_started_hooks (c : Config) : List (Option HookFn) :=
  (if c.csma_ca_enabled then [some .nrf_802154_csma_ca_tx_started_hook] else []) ++
  (if c.ack_timeout_enabled then [some .nrf_802154_ack_timeout_tx_started_hook] else []) ++
  [none]

/-- Table `m_rx_started_hooks`. -/
def m_rx_started_hooks (c : Config) : List (Option HookFn) :=
  (if c.delayed_trx_enabled then [some .nrf_802154_delayed_trx_rx_started_hook] else []) ++
  [none]

/-- Table `m_rx_ack_started_hooks`. -/
def m_rx_ack_started_hooks (c : Config) : List (Option HookFn) :=
  (if c.ack_timeout_enabled then [some .nrf_802154_ack_timeout_rx_ack_started_hook] else []) ++
  [none]

/-- Table `m_prio_changed_hooks`. -/
def m_prio_changed_hooks (c : Config) : List (Option HookFn) :=
  (if c.csma_ca_enabled then [some .nrf_802154_csma_ca_prio_changed_hook] else []) ++
  [none]

/-! ## The two dispatch-loop shapes

Every boolean channel of the C file uses the same loop:

    bool result = true;
    for (i = 0; i < count; i++) {
      if (table[i] == NULL) break;
      result = table[i](args);
      if (!result) break;
    }
    return result;

and every void channel the same loop without the result.  `dispatchBool` and
`dispatchVoid` are these loops by structural recursion on the table, also
returning the trace of calls made, each as (hook, argument tuple it was
passed).  When the loop reaches a `none` entry or the end of the table, the
running result is necessarily still `true` (otherwise it would have broken
earlier), so those cases return `true`. -/

/-- The AND-short-circuit dispatch loop shared by `terminate`,
`pre_transmission`, `tx_failed` and `tx_started`.  `f` gives each hook's
boolean return value on an argument tuple. -/
def dispatchBool {α : Type} (hooks : List (Option HookFn)) (f : HookFn → α → Bool) (a : α) :
    Bool × List (HookFn × α) :=
  match hooks with
  | [] => (true, [])
  | none :: _ => (true, [])
  | some h :: rest =>
    if f h a then
      let r := dispatchBool rest f a
      (r.1, (h, a) :: r.2)
    else
      (false, [(h, a)])

/-- The fan-out dispatch loop shared by `transmission_ready`, `transmitted`,
`rx_started`, `rx_ack_started` and `prio_changed`.  The hooks return `void`,
so the loop cannot observe them; the result is just the call trace. -/
def dispatchVoid {α : Type} (hooks : List (Option HookFn)) (a : α) : List (HookFn × α) :=
  match hooks with
  | [] => []
  | none :: _ => []
  | some h :: rest => (h, a) :: dispatchVoid rest a

/-- The candidate sequence of a table: its entries up to (excluding) the
first `NULL` sentinel — exactly the entries a dispatch loop can reach. -/
def candidates (hooks : List (Option HookFn)) : List HookFn :=
  (hooks.takeWhile Option.isSome).filterMap id

/-- Reference semantics of AND-short-circuit invocation, written from the
spec's words: candidates are invoked in order and invocation stops the
instant one returns false (that candidate is still invoked). -/
def shortCircuitCalls {α : Type} (f : HookFn → α → Bool) (a : α) : List HookFn → List HookFn
  | [] => []
  | h :: rest => if f h a then h :: shortCircuitCalls f a rest else [h]

/-! ## The nine channel entry points

Each is the C function applied to its table.  Argument tuples follow the C
signatures; the frame pointer and the notify callback are opaque to the
engine, so they are type parameters. -/

/-- `nrf_802154_core_hooks_terminate(term_lvl, req_orig)`. -/
def nrf_802154_core_hooks_terminate (c : Config) (f : HookFn → Nat × Nat → Bool)
    (term_lvl req_orig : Nat) : Bool × List (HookFn × (Nat × Nat)) :=
  dispatchBool (m_abort_hooks c) f (term_lvl, req_orig)

/-- `nrf_802154_core_hooks_pre_transmission(p_frame, cca, notify_function)`. -/
def nrf_802154_core_hooks_pre_transmission {φ ν : Type} (c : Config)
    (f : HookFn → φ × Bool × ν → Bool) (p_frame : φ) (cca : Bool) (notify_function : ν) :
    Bool × List (HookFn × (φ × Bool × ν)) :=
  dispatchBool (m_pre_transmission_hooks c) f (p_frame, cca, notify_function)

/-- `nrf_802154_core_hooks_transmission_ready(p_frame, ready)`. -/
def nrf_802154_core_hooks_transmission_ready {φ : Type} (p_frame : φ) (ready : Bool) :
    List (HookFn × (φ × Bool)) :=
  dispatchVoid m_transmission_ready_hooks (p_frame, ready)

/-- `nrf_802154_core_hooks_transmitted(p_frame)`. -/
def nrf_802154_core_hooks_transmitted {φ : Type} (c : Config) (p_frame : φ) :
    List (HookFn × φ) :=
  dispatchVoid (m_transmitted_hooks c) p_frame

/-- `nrf_802154_core_hooks_tx_failed(p_frame, error)`. -/
def nrf_802154_core_hooks_tx_failed {φ : Type} (c : Config) (f : HookFn → φ × Nat → Bool)
    (p_frame : φ) (error : Nat) : Bool × List (HookFn × (φ × Nat)) :=
  dispatchBool (m_tx_failed_hooks c) f (p_frame, error)

/-- `nrf_802154_core_hooks_tx_started(p_frame)`. -/
def nrf_802154_core_hooks_tx_started {φ : Type} (c : Config) (f : HookFn → φ → Bool)
    (p_frame : φ) : Bool × List (HookFn × φ) :=
  dispatchBool (m_tx_started_hooks c) f p_frame

/-- `nrf_802154_core_hooks_rx_started(p_frame)`. -/
def nrf_802154_core_hooks_rx_started {φ : Type} (c : Config) (p_frame : φ) :
    List (HookFn × φ) :=
  dispatchVoid (m_rx_started_hooks c) p_frame

/-- `nrf_802154_core_hooks_rx_ack_started()`. -/
def nrf_802154_core_hooks_rx_ack_started (c : Config) : List (HookFn × Unit) :=
  dispatchVoid (m_rx_ack_started_hooks c) ()

/-- `nrf_802154_core_hooks_prio_changed(old_prio, new_prio)`. -/
def nrf_802154_core_hooks_prio_changed (c : Config) (old_prio new_prio : Nat) :
    List (HookFn × (Nat × Nat)) :=
  dispatchVoid (m_prio_changed_hooks c) (old_prio, new_prio)

/-! ## Dispatch lemmas -/

theorem candidates_nil : candidates [] = [] := rfl

theorem candidates_none_cons (rest : List (Option HookFn)) :
    candidates (none :: rest) = [] := rfl

theorem candidates_some_cons (h : HookFn) (rest : List (Option HookFn)) :
    candidates (some h :: rest) = h :: candidates rest := rfl

/-- The fan-out loop calls exactly the candidate sequence, in table order,
passing each call the channel's argument tuple unchanged. -/
theorem dispatchVoid_eq {α : Type} (hooks : List (Option HookFn)) (a : α) :
    dispatchVoid hooks a = (candidates hooks).map (fun h => (h, a)) := by
  induction hooks with
  | nil => rfl
  | cons o rest ih =>
    cases o with
    | none => rfl
    | some h => simp [dispatchVoid, candidates_some_cons, ih]

/-- The AND-short-circuit loop's result is the conjunction of the candidate
verdicts. -/
theorem dispatchBool_fst (hooks : List (Option HookFn)) {α : Type}
    (f : HookFn → α → Bool) (a : α) :
    (dispatchBool hooks f a).1 = (candidates hooks).all (fun h => f h a) := by
  induction hooks with
  | nil => rfl
  | cons o rest ih =>
    cases o with
    | none => rfl
    | some h =>
      by_cases hv : f h a = true
      · simp [dispatchBool, hv, candidates_some_cons, ih]
      · simp [dispatchBool, Bool.eq_false_iff.mpr hv, candidates_some_cons]

/-- The AND-short-circuit loop's call trace is the spec's short-circuit
invocation sequence over the candidates, each call receiving the channel's
argument tuple unchanged. -/
theorem dispatchBool_snd (hooks : List (Option HookFn)) {α : Type}
    (f : HookFn → α → Bool) (a : α) :
    (dispatchBool hooks f a).2
      = (shortCircuitCalls f a (candidates hooks)).map (fun h => (h, a)) := by
  induction hooks with
  | nil => rfl
  | cons o rest ih =>
    cases o with
    | none => rfl
    | some h =>
      by_cases hv : f h a = true
      · simp [dispatchBool, hv, candidates_some_cons, shortCircuitCalls, ih, candidates]
      · simp [dispatchBool, Bool.eq_false_iff.mpr hv, candidates_some_cons, shortCircuitCalls]

/-- The spec's short-circuit invocation sequence is a sublist (in particular
an order-preserving selection) of the candidate sequence. -/
theorem shortCircuitCalls_sublist {α : Type} (f : HookFn → α → Bool) (a : α)
    (l : List HookFn) : List.Sublist (shortCircuitCalls f a l) l := by
  induction l with
  | nil => simp [shortCircuitCalls]
  | cons h rest ih =>
    by_cases hv : f h a = true
    · simpa [shortCircuitCalls, hv] using List.Sublist.cons₂ h ih
    · simp [shortCircuitCalls, Bool.eq_false_iff.mpr hv]

/-- The hooks called by the AND-short-circuit loop form a sublist of the
candidate sequence. -/
theorem dispatchBool_calls_sublist (hooks : List (Option HookFn)) {α : Type}
    (f : HookFn → α → Bool) (a : α) :
    List.Sublist ((dispatchBool hooks f a).2.map Prod.fst) (candidates hooks) := by
  rw [dispatchBool_snd, List.map_map]
  have : (Prod.fst ∘ fun h : HookFn => (h, a)) = id := rfl
  rw [this, List.map_id]
  exact shortCircuitCalls_sublist f a (candidates hooks)

/-- A `NULL` entry ends boolean dispatch: entries after it are never
examined, let alone called. -/
theorem dispatchBool_null_truncates {α : Type} (l₁ l₂ : List (Option HookFn))
    (f : HookFn → α → Bool) (a : α) :
    dispatchBool (l₁ ++ none :: l₂) f a = dispatchBool l₁ f a := by
  induction l₁ with
  | nil => rfl
  | cons o rest ih =>
    cases o with
    | none => rfl
    | some h =>
      by_cases hv : f h a = true
      · simp [dispatchBool, hv, ih]
      · simp [dispatchBool, Bool.eq_false_iff.mpr hv]

/-- A `NULL` entry ends fan-out dispatch: entries after it are never
examined, let alone called. -/
theorem dispatchVoid_null_truncates {α : Type} (l₁ l₂ : List (Option HookFn)) (a : α) :
    dispatchVoid (l₁ ++ none :: l₂) a = dispatchVoid l₁ a := by
  induction l₁ with
  | nil => rfl
  | cons o rest ih =>
    cases o with
    | none => rfl
    | some h => simp [dispatchVoid, ih]

/-- Boolean dispatch consults a hook's verdict only for hooks in the
candidate sequence: two behaviour oracles that agree there give the same
result and the same call trace. -/
theorem dispatchBool_congr (hooks : List (Option HookFn)) {α : Type}
    (f₁ f₂ : HookFn → α → Bool) (a : α)
    (hagree : ∀ h ∈ candidates hooks, f₁ h a = f₂ h a) :
    dispatchBool hooks f₁ a = dispatchBool hooks f₂ a := by
  induction hooks with
  | nil => rfl
  | cons o rest ih =>
    cases o with
    | none => rfl
    | some h =>
      have hh : f₁ h a = f₂ h a := hagree h (by simp [candidates_some_cons])
      have hrest : ∀ g ∈ candidates rest, f₁ g a = f₂ g a := fun g hg =>
        hagree g (by simp [candidates_some_cons, hg])
      by_cases hv : f₂ h a = true
      · simp [dispatchBool, hh, hv, ih hrest]
      · simp [dispatchBool, hh, Bool.eq_false_iff.mpr hv]

/-- Dispatch loops make at most as many calls as the table has entries: the
loop bound `i < sizeof(table)/sizeof(table[0])` is respected. -/
theorem dispatch_length_le {α : Type} (hooks : List (Option HookFn))
    (f : HookFn → α → Bool) (a : α) :
    (dispatchBool hooks f a).2.length ≤ hooks.length ∧
      (dispatchVoid hooks a).length ≤ hooks.length := by
  constructor
  · have h1 := (dispatchBool_calls_sublist hooks f a).length_le
    have h2 : (candidates hooks).length ≤ hooks.length := by
      calc (candidates hooks).length ≤ (hooks.takeWhile Option.isSome).length :=
            List.length_filterMap_le id _
        _ ≤ hooks.length := (List.takeWhile_sublist _).length_le
    calc (dispatchBool hooks f a).2.length
        = ((dispatchBool hooks f a).2.map Prod.fst).length := (List.length_map _ _).symm
      _ ≤ (candidates hooks).length := h1
      _ ≤ hooks.length := h2
  · rw [dispatchVoid_eq, List.length_map]
    calc (candidates hooks).length ≤ (hooks.takeWhile Option.isSome).length :=
          List.length_filterMap_le id _
      _ ≤ hooks.length := (List.takeWhile_sublist _).length_le

/-! ## Per-table shape lemmas

For each table, the candidate sequence equals the full per-channel hook list
(written in global priority order, as in the C file) filtered down to the
enabled modules: a disabled module's hook is absent, not a placeholder. -/

/-- All hooks the C file can place in `m_abort_hooks`, in source order. -/
def abortHookOrder : List HookFn :=
  [.nrf_802154_csma_ca_abort, .nrf_802154_ack_timeout_abort,
   .nrf_802154_delayed_trx_abort, .nrf_802154_ifs_abort, .nrf_802154_tx_timeout_abort]

/-- All hooks the C file can place in `m_pre_transmission_hooks`. -/
def preTransmissionHookOrder : List HookFn :=
  [.nrf_802154_csma_ca_pretransmission, .nrf_802154_ifs_pretransmission]

/-- All hooks the C file can place in `m_transmission_ready_hooks`. -/
def transmissionReadyHookOrder : List HookFn :=
  [.nrf_802154_tx_timeout_transmission_ready]

/-- All hooks the C file can place in `m_transmitted_hooks`. -/
def transmittedHookOrder : List HookFn :=
  [.nrf_802154_ack_timeout_transmitted_hook, .nrf_802154_ifs_transmitted_hook]

/-- All hooks the C file can place in `m_tx_failed_hooks`. -/
def txFailedHookOrder : List HookFn :=
  [.nrf_802154_csma_ca_tx_failed_hook, .nrf_802154_ack_timeout_tx_failed_hook]

/-- All hooks the C file can place in `m_tx_started_hooks`. -/
def txStartedHookOrder : List HookFn :=
  [.nrf_802154_csma_ca_tx_started_hook, .nrf_802154_ack_timeout_tx_started_hook]

/-- All hooks the C file can place in `m_rx_started_hooks`. -/
def rxStartedHookOrder : List HookFn :=
  [.nrf_802154_delayed_trx_rx_started_hook]

/-- All hooks the C file can place in `m_rx_ack_started_hooks`. -/
def rxAckStartedHookOrder : List HookFn :=
  [.nrf_802154_ack_timeout_rx_ack_started_hook]

/-- All hooks the C file can place in `m_prio_changed_hooks`. -/
def prioChangedHookOrder : List HookFn :=
  [.nrf_802154_csma_ca_prio_changed_hook]

theorem candidates_abort_eq (c : Config) :
    candidates (m_abort_hooks c)
      = abortHookOrder.filter (fun h => enabledIn c (moduleOf h)) := by
  rcases c with ⟨b1, b2, b3, b4⟩
  cases b1 <;> cases b2 <;> cases b3 <;> cases b4 <;> rfl

theorem candidates_pre_transmission_eq (c : Config) :
    candidates (m_pre_transmission_hooks c)
      = preTransmissionHookOrder.filter (fun h => enabledIn c (moduleOf h)) := by
  rcases c with ⟨b1, b2, b3, b4⟩
  cases b1 <;> cases b2 <;> cases b3 <;> cases b4 <;> rfl

theorem candidates_transmission_ready_eq :
    candidates m_transmission_ready_hooks = transmissionReadyHookOrder := rfl

theorem candidates_transmitted_eq (c : Config) :
    candidates (m_transmitted_hooks c)
      = transmittedHookOrder.filter (fun h => enabledIn c (moduleOf h)) := by
  rcases c with ⟨b1, b2, b3, b4⟩
  cases b1 <;> cases b2 <;> cases b3 <;> cases b4 <;> rfl

theorem candidates_tx_failed_eq (c : Config) :
    candidates (m_tx_failed_hooks c)
      = txFailedHookOrder.filter (fun h => enabledIn c (moduleOf h)) := by
  rcases c with ⟨b1, b2, b3, b4⟩
  cases b1 <;> cases b2 <;> cases b3 <;> cases b4 <;> rfl

theorem candidates_tx_started_eq (c : Config) :
    candidates (m_tx_started_hooks c)
      = txStartedHookOrder.filter (fun h => enabledIn c (moduleOf h)) := by
  rcases c with ⟨b1, b2, b3, b4⟩
  cases b1 <;> cases b2 <;> cases b3 <;> cases b4 <;> rfl

theorem candidates_rx_started_eq (c : Config) :
    candidates (m_rx_started_hooks c)
      = rxStartedHookOrder.filter (fun h => enabledIn c (moduleOf h)) := by
  rcases c with ⟨b1, b2, b3, b4⟩
  cases b1 <;> cases b2 <;> cases b3 <;> cases b4 <;> rfl

theorem candidates_rx_ack_started_eq (c : Config) :
    candidates (m_rx_ack_started_hooks c)
      = rxAckStartedHookOrder.filter (fun h => enabledIn c (moduleOf h)) := by
  rcases c with ⟨b1, b2, b3, b4⟩
  cases b1 <;> cases b2 <;> cases b3 <;> cases b4 <;> rfl

theorem candidates_prio_changed_eq (c : Config) :
    candidates (m_prio_changed_hooks c)
      = prioChangedHookOrder.filter (fun h => enabledIn c (moduleOf h)) := by
  rcases c with ⟨b1, b2, b3, b4⟩
  cases b1 <;> cases b2 <;> cases b3 <;> cases b4 <;> rfl

theorem candidates_abort_pairwise (c : Config) :
    (candidates (m_abort_hooks c)).Pairwise (fun x y => hookPriority x < hookPriority y) := by
  rw [candidates_abort_eq]
  exact List.Pairwise.filter _ (by decide)

theorem candidates_pre_transmission_pairwise (c : Config) :
    (candidates (m_pre_transmission_hooks c)).Pairwise
      (fun x y => hookPriority x < hookPriority y) := by
  rw [candidates_pre_transmission_eq]
  exact List.Pairwise.filter _ (by decide)

theorem candidates_transmission_ready_pairwise :
    (candidates m_transmission_ready_hooks).Pairwise
      (fun x y => hookPriority x < hookPriority y) := by
  decide

theorem candidates_transmitted_pairwise (c : Config) :
    (candidates (m_transmitted_hooks c)).Pairwise
      (fun x y => hookPriority x < hookPriority y) := by
  rw [candidates_transmitted_eq]
  exact List.Pairwise.filter _ (by decide)

theorem candidates_tx_failed_pairwise (c : Config) :
    (candidates (m_tx_failed_hooks c)).Pairwise
      (fun x y => hookPriority x < hookPriority y) := by
  rw [candidates_tx_failed_eq]
  exact List.Pairwise.filter _ (by decide)

theorem candidates_tx_started_pairwise (c : Config) :
    (candidates (m_tx_started_hooks c)).Pairwise
      (fun x y => hookPriority x < hookPriority y) := by
  rw [candidates_tx_started_eq]
  exact List.Pairwise.filter _ (by decide)

theorem candidates_rx_started_pairwise (c : Config) :
    (candidates (m_rx_started_hooks c)).Pairwise
      (fun x y => hookPriority x < hookPriority y) := by
  rw [candidates_rx_started_eq]
  exact List.Pairwise.filter _ (by decide)

theorem candidates_rx_ack_started_pairwise (c : Config) :
    (candidates (m_rx_ack_started_hooks c)).Pairwise
      (fun x y => hookPriority x < hookPriority y) := by
  rw [candidates_rx_ack_started_eq]
  exact List.Pairwise.filter _ (by decide)

theorem candidates_prio_changed_pairwise (c : Config) :
    (candidates (m_prio_changed_hooks c)).Pairwise
      (fun x y => hookPriority x < hookPriority y) := by
  rw [candidates_prio_changed_eq]
  exact List.Pairwise.filter _ (by decide)

/-- The hooks called by fan-out dispatch are exactly the candidate
sequence. -/
theorem dispatchVoid_calls_eq {α : Type} (hooks : List (Option HookFn)) (a : α) :
    (dispatchVoid hooks a).map Prod.fst = candidates hooks := by
  rw [dispatchVoid_eq, List.map_map]
  have h : (Prod.fst ∘ fun h : HookFn => (h, a)) = id := rfl
  rw [h, List.map_id]

/-- Mapping the second projection over a trace built from a single argument
tuple yields that tuple repeated once per call. -/
theorem map_snd_pair_trace {α : Type} (l : List HookFn) (a : α) :
    (l.map (fun h => (h, a))).map Prod.snd
      = List.replicate (l.map (fun h => (h, a))).length a := by
  rw [List.map_map, List.length_map]
  have h : (Prod.snd ∘ fun h : HookFn => (h, a)) = fun _ => a := rfl
  rw [h]
  exact List.map_const' l a

/-- Every hook a dispatch loop can reach belongs to a module enabled in the
configuration, provided the table's candidates are the enabled filter of a
hook list. -/
theorem calls_all_enabled {c : Config} {order : List HookFn}
    {hooks : List (Option HookFn)} {l : List HookFn}
    (hc : candidates hooks = order.filter (fun h => enabledIn c (moduleOf h)))
    (hs : List.Sublist l (candidates hooks)) :
    l.all (fun h => enabledIn c (moduleOf h)) = true := by
  rw [List.all_eq_true]
  intro h hm
  have hmem := hs.subset hm
  rw [hc] at hmem
  exact (List.mem_filter.mp hmem).2

/-- The configuration with every optional feature module disabled. -/
def zeroConfig : Config :=
  ⟨false, false, false, false⟩

/-- The configuration of spec Scenario A: CSMA/CA and ACK-timeout enabled,
delayed-TRX and IFS disabled. -/
def scenarioAConfig : Config :=
  ⟨true, true, false, false⟩

/-! ## Claim theorems -/

/-- C1: For every AND-short-circuit channel (terminate, pre_transmission,
tx_failed, tx_started), every configuration, every argument tuple and every
assignment of candidate verdicts: the call trace is exactly the spec's
short-circuit invocation sequence over the channel's candidates — candidates
invoked in order, each verdict becoming the running result, invocation
stopping at the first false so that no later candidate is invoked — and the
returned value is the conjunction of the candidate verdicts: true if all ran
and returned true, false at the first false, and true if the candidate
sequence is empty. -/
theorem and_short_circuit_channels_spec {φ ν : Type} (c : Config)
    (fT : HookFn → Nat × Nat → Bool) (term_lvl req_orig : Nat)
    (fP : HookFn → φ × Bool × ν → Bool) (p_frame : φ) (cca : Bool) (notify_function : ν)
    (fF : HookFn → φ × Nat → Bool) (error : Nat)
    (fS : HookFn → φ → Bool) :
    ((nrf_802154_core_hooks_terminate c fT term_lvl req_orig).1
        = (candidates (m_abort_hooks c)).all (fun h => fT h (term_lvl, req_orig)) ∧
      (nrf_802154_core_hooks_terminate c fT term_lvl req_orig).2
        = (shortCircuitCalls fT (term_lvl, req_orig) (candidates (m_abort_hooks c))).map
            (fun h => (h, (term_lvl, req_orig)))) ∧
    ((nrf_802154_core_hooks_pre_transmission c fP p_frame cca notify_function).1
        = (candidates (m_pre_transmission_hooks c)).all
            (fun h => fP h (p_frame, cca, notify_function)) ∧
      (nrf_802154_core_hooks_pre_transmission c fP p_frame cca notify_function).2
        = (shortCircuitCalls fP (p_frame, cca, notify_function)
            (candidates (m_pre_transmission_hooks c))).map
            (fun h => (h, (p_frame, cca, notify_function)))) ∧
    ((nrf_802154_core_hooks_tx_failed c fF p_frame error).1
        = (candidates (m_tx_failed_hooks c)).all (fun h => fF h (p_frame, error)) ∧
      (nrf_802154_core_hooks_tx_failed c fF p_frame error).2
        = (shortCircuitCalls fF (p_frame, error) (candidates (m_tx_failed_hooks c))).map
            (fun h => (h, (p_frame, error)))) ∧
    ((nrf_802154_core_hooks_tx_started c fS p_frame).1
        = (candidates (m_tx_started_hooks c)).all (fun h => fS h p_frame) ∧
      (nrf_802154_core_hooks_tx_started c fS p_frame).2
        = (shortCircuitCalls fS p_frame (candidates (m_tx_started_hooks c))).map
            (fun h => (h, p_frame))) :=
  ⟨⟨dispatchBool_fst _ _ _, dispatchBool_snd _ _ _⟩,
   ⟨dispatchBool_fst _ _ _, dispatchBool_snd _ _ _⟩,
   ⟨dispatchBool_fst _ _ _, dispatchBool_snd _ _ _⟩,
   ⟨dispatchBool_fst _ _ _, dispatchBool_snd _ _ _⟩⟩

/-- C2: For every fan-out channel (transmission_ready, transmitted,
rx_started, rx_ack_started, prio_changed) and every configuration, the call
trace is exactly the channel's enabled candidates in priority order, each
invoked once with the channel's argument tuple, irrespective of any candidate
behaviour (the hooks return void, so dispatch cannot observe them); an empty
candidate sequence yields zero calls. -/
theorem fan_out_channels_spec {φ : Type} (c : Config) (p_frame : φ) (ready : Bool)
    (old_prio new_prio : Nat) :
    nrf_802154_core_hooks_transmission_ready p_frame ready
        = transmissionReadyHookOrder.map (fun h => (h, (p_frame, ready))) ∧
    nrf_802154_core_hooks_transmitted c p_frame
        = (transmittedHookOrder.filter (fun h => enabledIn c (moduleOf h))).map
            (fun h => (h, p_frame)) ∧
    nrf_802154_core_hooks_rx_started c p_frame
        = (rxStartedHookOrder.filter (fun h => enabledIn c (moduleOf h))).map
            (fun h => (h, p_frame)) ∧
    nrf_802154_core_hooks_rx_ack_started c
        = (rxAckStartedHookOrder.filter (fun h => enabledIn c (moduleOf h))).map
            (fun h => (h, ())) ∧
    nrf_802154_core_hooks_prio_changed c old_prio new_prio
        = (prioChangedHookOrder.filter (fun h => enabledIn c (moduleOf h))).map
            (fun h => (h, (old_prio, new_prio))) := by
  refine ⟨?_, ?_, ?_, ?_, ?_⟩
  · rw [nrf_802154_core_hooks_transmission_ready, dispatchVoid_eq,
      candidates_transmission_ready_eq]
  · rw [nrf_802154_core_hooks_transmitted, dispatchVoid_eq, candidates_transmitted_eq]
  · rw [nrf_802154_core_hooks_rx_started, dispatchVoid_eq, candidates_rx_started_eq]
  · rw [nrf_802154_core_hooks_rx_ack_started, dispatchVoid_eq, candidates_rx_ack_started_eq]
  · rw [nrf_802154_core_hooks_prio_changed, dispatchVoid_eq, candidates_prio_changed_eq]

/-- C3 counterexample: with all four optional feature flags off, the claim
fails on two channels.  The terminate channel still invokes the unconditional
base guard `nrf_802154_tx_timeout_abort` and returns its verdict — here
false, not true — and `transmission_ready` makes one hook call, not zero. -/
theorem zero_config_claim_counterexample :
    (nrf_802154_core_hooks_terminate zeroConfig (fun _ _ => false) 0 0).1 = false ∧
    nrf_802154_core_hooks_transmission_ready (0 : Nat) true ≠ [] := by
  decide

/-- C3 (amended): with all four optional feature flags off, the channels
whose tables then hold no candidate behave vacuously — pre_transmission,
tx_failed and tx_started return true with zero calls, and transmitted,
rx_started, rx_ack_started and prio_changed make zero calls — while
terminate invokes exactly the unconditional base guard
`nrf_802154_tx_timeout_abort` once and returns its verdict, and
transmission_ready invokes exactly
`nrf_802154_tx_timeout_transmission_ready` once. -/
theorem zero_config_channels_spec {φ ν : Type}
    (fT : HookFn → Nat × Nat → Bool) (term_lvl req_orig : Nat)
    (fP : HookFn → φ × Bool × ν → Bool) (p_frame : φ) (cca : Bool) (notify_function : ν)
    (fF : HookFn → φ × Nat → Bool) (error : Nat)
    (fS : HookFn → φ → Bool) (ready : Bool) (old_prio new_prio : Nat) :
    nrf_802154_core_hooks_terminate zeroConfig fT term_lvl req_orig
        = (fT .nrf_802154_tx_timeout_abort (term_lvl, req_orig),
           [(.nrf_802154_tx_timeout_abort, (term_lvl, req_orig))]) ∧
    nrf_802154_core_hooks_pre_transmission zeroConfig fP p_frame cca notify_function
        = (true, []) ∧
    nrf_802154_core_hooks_tx_failed zeroConfig fF p_frame error = (true, []) ∧
    nrf_802154_core_hooks_tx_started zeroConfig fS p_frame = (true, []) ∧
    nrf_802154_core_hooks_transmission_ready p_frame ready
        = [(.nrf_802154_tx_timeout_transmission_ready, (p_frame, ready))] ∧
    nrf_802154_core_hooks_transmitted zeroConfig p_frame = [] ∧
    nrf_802154_core_hooks_rx_started zeroConfig p_frame = [] ∧
    nrf_802154_core_hooks_rx_ack_started zeroConfig = [] ∧
    nrf_802154_core_hooks_prio_changed zeroConfig old_prio new_prio = [] := by
  refine ⟨?_, rfl, rfl, rfl, rfl, rfl, rfl, rfl, rfl⟩
  show dispatchBool [some .nrf_802154_tx_timeout_abort] fT (term_lvl, req_orig) = _
  by_cases hv : fT .nrf_802154_tx_timeout_abort (term_lvl, req_orig) = true
  · simp [dispatchBool, hv]
  · simp [dispatchBool, Bool.eq_false_iff.mpr hv]

/-- C4: For every channel, every configuration, every argument tuple and
every assignment of candidate verdicts, the hooks invoked in one channel call
are drawn in order from the channel's fixed candidate sequence (for fan-out
channels they are exactly that sequence) and are strictly increasing in the
single global module priority — CSMA/CA, then ACK-timeout, then delayed-TRX,
then IFS, then the base TX-timeout guard.  The candidate sequences are fixed
per configuration, so repeated invocations under the same enabled set invoke
candidates in the same fixed order. -/
theorem priority_order_invariant {φ ν : Type} (c : Config)
    (fT : HookFn → Nat × Nat → Bool) (term_lvl req_orig : Nat)
    (fP : HookFn → φ × Bool × ν → Bool) (p_frame : φ) (cca : Bool) (notify_function : ν)
    (fF : HookFn → φ × Nat → Bool) (error : Nat)
    (fS : HookFn → φ → Bool) (ready : Bool) (old_prio new_prio : Nat) :
    (List.Sublist ((nrf_802154_core_hooks_terminate c fT term_lvl req_orig).2.map Prod.fst)
        (candidates (m_abort_hooks c)) ∧
      ((nrf_802154_core_hooks_terminate c fT term_lvl req_orig).2.map Prod.fst).Pairwise
        (fun x y => hookPriority x < hookPriority y)) ∧
    (List.Sublist
        ((nrf_802154_core_hooks_pre_transmission c fP p_frame cca notify_function).2.map
          Prod.fst)
        (candidates (m_pre_transmission_hooks c)) ∧
      ((nrf_802154_core_hooks_pre_transmission c fP p_frame cca notify_function).2.map
          Prod.fst).Pairwise (fun x y => hookPriority x < hookPriority y)) ∧
    (List.Sublist ((nrf_802154_core_hooks_tx_failed c fF p_frame error).2.map Prod.fst)
        (candidates (m_tx_failed_hooks c)) ∧
      ((nrf_802154_core_hooks_tx_failed c fF p_frame error).2.map Prod.fst).Pairwise
        (fun x y => hookPriority x < hookPriority y)) ∧
    (List.Sublist ((nrf_802154_core_hooks_tx_started c fS p_frame).2.map Prod.fst)
        (candidates (m_tx_started_hooks c)) ∧
      ((nrf_802154_core_hooks_tx_started c fS p_frame).2.map Prod.fst).Pairwise
        (fun x y => hookPriority x < hookPriority y)) ∧
    ((nrf_802154_core_hooks_transmission_ready p_frame ready).map Prod.fst
        = candidates m_transmission_ready_hooks ∧
      ((nrf_802154_core_hooks_transmission_ready p_frame ready).map Prod.fst).Pairwise
        (fun x y => hookPriority x < hookPriority y)) ∧
    ((nrf_802154_core_hooks_transmitted c p_frame).map Prod.fst
        = candidates (m_transmitted_hooks c) ∧
      ((nrf_802154_core_hooks_transmitted c p_frame).map Prod.fst).Pairwise
        (fun x y => hookPriority x < hookPriority y)) ∧
    ((nrf_802154_core_hooks_rx_started c p_frame).map Prod.fst
        = candidates (m_rx_started_hooks c) ∧
      ((nrf_802154_core_hooks_rx_started c p_frame).map Prod.fst).Pairwise
        (fun x y => hookPriority x < hookPriority y)) ∧
    ((nrf_802154_core_hooks_rx_ack_started c).map Prod.fst
        = candidates (m_rx_ack_started_hooks c) ∧
      ((nrf_802154_core_hooks_rx_ack_started c).map Prod.fst).Pairwise
        (fun x y => hookPriority x < hookPriority y)) ∧
    ((nrf_802154_core_hooks_prio_changed c old_prio new_prio).map Prod.fst
        = candidates (m_prio_changed_hooks c) ∧
      ((nrf_802154_core_hooks_prio_changed c old_prio new_prio).map Prod.fst).Pairwise
        (fun x y => hookPriority x < hookPriority y)) := by
  refine ⟨⟨?_, ?_⟩, ⟨?_, ?_⟩, ⟨?_, ?_⟩, ⟨?_, ?_⟩, ⟨?_, ?_⟩, ⟨?_, ?_⟩, ⟨?_, ?_⟩, ⟨?_, ?_⟩,
    ⟨?_, ?_⟩⟩
  · exact dispatchBool_calls_sublist _ _ _
  · exact (candidates_abort_pairwise c).sublist (dispatchBool_calls_sublist _ _ _)
  · exact dispatchBool_calls_sublist _ _ _
  · exact (candidates_pre_transmission_pairwise c).sublist (dispatchBool_calls_sublist _ _ _)
  · exact dispatchBool_calls_sublist _ _ _
  · exact (candidates_tx_failed_pairwise c).sublist (dispatchBool_calls_sublist _ _ _)
  · exact dispatchBool_calls_sublist _ _ _
  · exact (candidates_tx_started_pairwise c).sublist (dispatchBool_calls_sublist _ _ _)
  · exact dispatchVoid_calls_eq _ _
  · rw [nrf_802154_core_hooks_transmission_ready, dispatchVoid_calls_eq]
    exact candidates_transmission_ready_pairwise
  · exact dispatchVoid_calls_eq _ _
  · rw [nrf_802154_core_hooks_transmitted, dispatchVoid_calls_eq]
    exact candidates_transmitted_pairwise c
  · exact dispatchVoid_calls_eq _ _
  · rw [nrf_802154_core_hooks_rx_started, dispatchVoid_calls_eq]
    exact candidates_rx_started_pairwise c
  · exact dispatchVoid_calls_eq _ _
  · rw [nrf_802154_core_hooks_rx_ack_started, dispatchVoid_calls_eq]
    exact candidates_rx_ack_started_pairwise c
  · exact dispatchVoid_calls_eq _ _
  · rw [nrf_802154_core_hooks_prio_changed, dispatchVoid_calls_eq]
    exact candidates_prio_changed_pairwise c

/-- C5: For every channel and every configuration, a feature module whose
flag is disabled contributes nothing: each channel's candidate sequence is
exactly the channel's hook list (in global priority order) filtered to the
enabled modules — a disabled module's hook occupies no position, it is
absent rather than a skipped no-op, so channel length varies per
configuration — and consequently every hook invoked by any channel call
belongs to an enabled module. -/
theorem disabled_feature_absent {φ ν : Type} (c : Config)
    (fT : HookFn → Nat × Nat → Bool) (term_lvl req_orig : Nat)
    (fP : HookFn → φ × Bool × ν → Bool) (p_frame : φ) (cca : Bool) (notify_function : ν)
    (fF : HookFn → φ × Nat → Bool) (error : Nat)
    (fS : HookFn → φ → Bool) (ready : Bool) (old_prio new_prio : Nat) :
    (candidates (m_abort_hooks c)
        = abortHookOrder.filter (fun h => enabledIn c (moduleOf h)) ∧
      candidates (m_pre_transmission_hooks c)
        = preTransmissionHookOrder.filter (fun h => enabledIn c (moduleOf h)) ∧
      candidates m_transmission_ready_hooks
        = transmissionReadyHookOrder.filter (fun h => enabledIn c (moduleOf h)) ∧
      candidates (m_transmitted_hooks c)
        = transmittedHookOrder.filter (fun h => enabledIn c (moduleOf h)) ∧
      candidates (m_tx_failed_hooks c)
        = txFailedHookOrder.filter (fun h => enabledIn c (moduleOf h)) ∧
      candidates (m_tx_started_hooks c)
        = txStartedHookOrder.filter (fun h => enabledIn c (moduleOf h)) ∧
      candidates (m_rx_started_hooks c)
        = rxStartedHookOrder.filter (fun h => enabledIn c (moduleOf h)) ∧
      candidates (m_rx_ack_started_hooks c)
        = rxAckStartedHookOrder.filter (fun h => enabledIn c (moduleOf h)) ∧
      candidates (m_prio_changed_hooks c)
        = prioChangedHookOrder.filter (fun h => enabledIn c (moduleOf h))) ∧
    (((nrf_802154_core_hooks_terminate c fT term_lvl req_orig).2.map Prod.fst).all
        (fun h => enabledIn c (moduleOf h)) = true ∧
      ((nrf_802154_core_hooks_pre_transmission c fP p_frame cca notify_function).2.map
          Prod.fst).all (fun h => enabledIn c (moduleOf h)) = true ∧
      ((nrf_802154_core_hooks_tx_failed c fF p_frame error).2.map Prod.fst).all
        (fun h => enabledIn c (moduleOf h)) = true ∧
      ((nrf_802154_core_hooks_tx_started c fS p_frame).2.map Prod.fst).all
        (fun h => enabledIn c (moduleOf h)) = true ∧
      ((nrf_802154_core_hooks_transmission_ready p_frame ready).map Prod.fst).all
        (fun h => enabledIn c (moduleOf h)) = true ∧
      ((nrf_802154_core_hooks_transmitted c p_frame).map Prod.fst).all
        (fun h => enabledIn c (moduleOf h)) = true ∧
      ((nrf_802154_core_hooks_rx_started c p_frame).map Prod.fst).all
        (fun h => enabledIn c (moduleOf h)) = true ∧
      ((nrf_802154_core_hooks_rx_ack_started c).map Prod.fst).all
        (fun h => enabledIn c (moduleOf h)) = true ∧
      ((nrf_802154_core_hooks_prio_changed c old_prio new_prio).map Prod.fst).all
        (fun h => enabledIn c (moduleOf h)) = true) := by
  have htr : candidates m_transmission_ready_hooks
      = transmissionReadyHookOrder.filter (fun h => enabledIn c (moduleOf h)) := rfl
  refine ⟨⟨candidates_abort_eq c, candidates_pre_transmission_eq c, htr,
    candidates_transmitted_eq c, candidates_tx_failed_eq c, candidates_tx_started_eq c,
    candidates_rx_started_eq c, candidates_rx_ack_started_eq c,
    candidates_prio_changed_eq c⟩, ?_, ?_, ?_, ?_, ?_, ?_, ?_, ?_, ?_⟩
  · exact calls_all_enabled (candidates_abort_eq c) (dispatchBool_calls_sublist _ _ _)
  · exact calls_all_enabled (candidates_pre_transmission_eq c)
      (dispatchBool_calls_sublist _ _ _)
  · exact calls_all_enabled (candidates_tx_failed_eq c) (dispatchBool_calls_sublist _ _ _)
  · exact calls_all_enabled (candidates_tx_started_eq c) (dispatchBool_calls_sublist _ _ _)
  · exact calls_all_enabled htr ((dispatchVoid_calls_eq _ _) ▸ List.Sublist.refl _)
  · exact calls_all_enabled (candidates_transmitted_eq c)
      ((dispatchVoid_calls_eq _ _) ▸ List.Sublist.refl _)
  · exact calls_all_enabled (candidates_rx_started_eq c)
      ((dispatchVoid_calls_eq _ _) ▸ List.Sublist.refl _)
  · exact calls_all_enabled (candidates_rx_ack_started_eq c)
      ((dispatchVoid_calls_eq _ _) ▸ List.Sublist.refl _)
  · exact calls_all_enabled (candidates_prio_changed_eq c)
      ((dispatchVoid_calls_eq _ _) ▸ List.Sublist.refl _)

/-- C6: In every configuration the base transmit-timeout guard is present
where its channel applies: `nrf_802154_tx_timeout_abort` is the final
candidate of the terminate channel, and
`nrf_802154_core_hooks_transmission_ready` invokes
`nrf_802154_tx_timeout_transmission_ready` exactly once on every call,
regardless of which optional feature flags are enabled. -/
theorem tx_timeout_base_guard {φ : Type} (c : Config) (p_frame : φ) (ready : Bool) :
    (candidates (m_abort_hooks c)).getLast? = some .nrf_802154_tx_timeout_abort ∧
    nrf_802154_core_hooks_transmission_ready p_frame ready
      = [(.nrf_802154_tx_timeout_transmission_ready, (p_frame, ready))] := by
  constructor
  · rcases c with ⟨b1, b2, b3, b4⟩
    cases b1 <;> cases b2 <;> cases b3 <;> cases b4 <;> rfl
  · rfl

/-- C7: With CSMA/CA and ACK-timeout enabled and delayed-TRX and IFS
disabled, the terminate channel's candidate order is
[nrf_802154_csma_ca_abort, nrf_802154_ack_timeout_abort,
nrf_802154_tx_timeout_abort], and whenever `nrf_802154_csma_ca_abort`
returns false the other two are not called and
`nrf_802154_core_hooks_terminate` returns false. -/
theorem scenario_a_terminate (f : HookFn → Nat × Nat → Bool) (term_lvl req_orig : Nat)
    (hcsma : f .nrf_802154_csma_ca_abort (term_lvl, req_orig) = false) :
    candidates (m_abort_hooks scenarioAConfig)
      = [.nrf_802154_csma_ca_abort, .nrf_802154_ack_timeout_abort,
         .nrf_802154_tx_timeout_abort] ∧
    nrf_802154_core_hooks_terminate scenarioAConfig f term_lvl req_orig
      = (false, [(.nrf_802154_csma_ca_abort, (term_lvl, req_orig))]) := by
  refine ⟨rfl, ?_⟩
  show dispatchBool
      [some .nrf_802154_csma_ca_abort, some .nrf_802154_ack_timeout_abort,
       some .nrf_802154_tx_timeout_abort] f (term_lvl, req_orig) = _
  simp [dispatchBool, hcsma]

/-- Witness for C7 at the concrete verdict assignment returning false
everywhere and concrete arguments (1, 2). -/
theorem scenario_a_terminate_witness :
    candidates (m_abort_hooks scenarioAConfig)
      = [.nrf_802154_csma_ca_abort, .nrf_802154_ack_timeout_abort,
         .nrf_802154_tx_timeout_abort] ∧
    nrf_802154_core_hooks_terminate scenarioAConfig (fun _ _ => false) 1 2
      = (false, [(.nrf_802154_csma_ca_abort, (1, 2))]) :=
  scenario_a_terminate (fun _ _ => false) 1 2 rfl

/-- C8: The engine is deterministic and stateless.  Each boolean channel's
result and call trace are a function of the configuration, the arguments and
the candidates' verdicts alone: two invocations whose behaviour oracles agree
on the channel's candidate sequence (in particular two invocations with
identical behaviours) produce identical call sequences and identical
results.  The hook tables are immutable `static const` data read by the
dispatch; no engine state changes between calls (fan-out channels take no
oracle at all, so their traces are per se functions of configuration and
arguments). -/
theorem engine_deterministic_stateless {φ ν : Type} (c : Config)
    (fT₁ fT₂ : HookFn → Nat × Nat → Bool) (term_lvl req_orig : Nat)
    (fP₁ fP₂ : HookFn → φ × Bool × ν → Bool) (p_frame : φ) (cca : Bool)
    (notify_function : ν)
    (fF₁ fF₂ : HookFn → φ × Nat → Bool) (error : Nat)
    (fS₁ fS₂ : HookFn → φ → Bool)
    (hT : ∀ h ∈ candidates (m_abort_hooks c),
      fT₁ h (term_lvl, req_orig) = fT₂ h (term_lvl, req_orig))
    (hP : ∀ h ∈ candidates (m_pre_transmission_hooks c),
      fP₁ h (p_frame, cca, notify_function) = fP₂ h (p_frame, cca, notify_function))
    (hF : ∀ h ∈ candidates (m_tx_failed_hooks c),
      fF₁ h (p_frame, error) = fF₂ h (p_frame, error))
    (hS : ∀ h ∈ candidates (m_tx_started_hooks c), fS₁ h p_frame = fS₂ h p_frame) :
    nrf_802154_core_hooks_terminate c fT₁ term_lvl req_orig
      = nrf_802154_core_hooks_terminate c fT₂ term_lvl req_orig ∧
    nrf_802154_core_hooks_pre_transmission c fP₁ p_frame cca notify_function
      = nrf_802154_core_hooks_pre_transmission c fP₂ p_frame cca notify_function ∧
    nrf_802154_core_hooks_tx_failed c fF₁ p_frame error
      = nrf_802154_core_hooks_tx_failed c fF₂ p_frame error ∧
    nrf_802154_core_hooks_tx_started c fS₁ p_frame
      = nrf_802154_core_hooks_tx_started c fS₂ p_frame :=
  ⟨dispatchBool_congr _ _ _ _ hT, dispatchBool_congr _ _ _ _ hP,
   dispatchBool_congr _ _ _ _ hF, dispatchBool_congr _ _ _ _ hS⟩

/-- Witness for C8 at the zero configuration, with behaviour oracles that
differ on hooks outside the candidate sequences but agree on them. -/
theorem engine_deterministic_stateless_witness :
    nrf_802154_core_hooks_terminate zeroConfig (fun _ _ => true) 0 0
      = nrf_802154_core_hooks_terminate zeroConfig
          (fun h _ => h == .nrf_802154_tx_timeout_abort) 0 0 ∧
    nrf_802154_core_hooks_pre_transmission zeroConfig
        (fun (_ : HookFn) (_ : Nat × Bool × Nat) => true) 5 true 7
      = nrf_802154_core_hooks_pre_transmission zeroConfig (fun _ _ => false) 5 true 7 ∧
    nrf_802154_core_hooks_tx_failed zeroConfig
        (fun (_ : HookFn) (_ : Nat × Nat) => true) 5 3
      = nrf_802154_core_hooks_tx_failed zeroConfig (fun _ _ => false) 5 3 ∧
    nrf_802154_core_hooks_tx_started zeroConfig (fun (_ : HookFn) (_ : Nat) => true) 5
      = nrf_802154_core_hooks_tx_started zeroConfig (fun _ _ => false) 5 :=
  engine_deterministic_stateless zeroConfig (fun _ _ => true)
    (fun h _ => h == .nrf_802154_tx_timeout_abort) 0 0
    (fun _ _ => true) (fun _ _ => false) 5 true 7
    (fun _ _ => true) (fun _ _ => false) 3
    (fun _ _ => true) (fun _ _ => false)
    (by decide) (by decide) (by decide) (by decide)

/-- C9: For every frame-carrying channel call — pre_transmission,
transmission_ready, transmitted, tx_failed, tx_started and rx_started — the
engine passes the frame reference and all other arguments through to each
invoked candidate unchanged: every call in the trace carries the channel's
original argument tuple.  The engine never inspects the frame itself — the
frame type is an opaque parameter of the embedding — and for the fan-out
channels the called-hook sequence is the frame-independent candidate
sequence. -/
theorem frame_read_only_pass_through {φ ν : Type} (c : Config)
    (fP : HookFn → φ × Bool × ν → Bool) (p_frame : φ) (cca : Bool)
    (notify_function : ν)
    (fF : HookFn → φ × Nat → Bool) (error : Nat)
    (fS : HookFn → φ → Bool) (ready : Bool) :
    ((nrf_802154_core_hooks_pre_transmission c fP p_frame cca notify_function).2).map
        Prod.snd
      = List.replicate
          ((nrf_802154_core_hooks_pre_transmission c fP p_frame cca
            notify_function).2).length
          (p_frame, cca, notify_function) ∧
    (nrf_802154_core_hooks_transmitted c p_frame).map Prod.snd
      = List.replicate (nrf_802154_core_hooks_transmitted c p_frame).length p_frame ∧
    (nrf_802154_core_hooks_transmitted c p_frame).map Prod.fst
      = candidates (m_transmitted_hooks c) ∧
    ((nrf_802154_core_hooks_tx_failed c fF p_frame error).2).map Prod.snd
      = List.replicate ((nrf_802154_core_hooks_tx_failed c fF p_frame error).2).length
          (p_frame, error) ∧
    ((nrf_802154_core_hooks_tx_started c fS p_frame).2).map Prod.snd
      = List.replicate ((nrf_802154_core_hooks_tx_started c fS p_frame).2).length
          p_frame ∧
    (nrf_802154_core_hooks_rx_started c p_frame).map Prod.snd
      = List.replicate (nrf_802154_core_hooks_rx_started c p_frame).length p_frame ∧
    (nrf_802154_core_hooks_rx_started c p_frame).map Prod.fst
      = candidates (m_rx_started_hooks c) ∧
    (nrf_802154_core_hooks_transmission_ready p_frame ready).map Prod.snd
      = List.replicate (nrf_802154_core_hooks_transmission_ready p_frame ready).length
          (p_frame, ready) ∧
    (nrf_802154_core_hooks_transmission_ready p_frame ready).map Prod.fst
      = candidates m_transmission_ready_hooks := by
  refine ⟨?_, ?_, dispatchVoid_calls_eq _ _, ?_, ?_, ?_, dispatchVoid_calls_eq _ _, ?_,
    dispatchVoid_calls_eq _ _⟩
  · rw [nrf_802154_core_hooks_pre_transmission, dispatchBool_snd]
    exact map_snd_pair_trace _ _
  · rw [nrf_802154_core_hooks_transmitted, dispatchVoid_eq]
    exact map_snd_pair_trace _ _
  · rw [nrf_802154_core_hooks_tx_failed, dispatchBool_snd]
    exact map_snd_pair_trace _ _
  · rw [nrf_802154_core_hooks_tx_started, dispatchBool_snd]
    exact map_snd_pair_trace _ _
  · rw [nrf_802154_core_hooks_rx_started, dispatchVoid_eq]
    exact map_snd_pair_trace _ _
  · rw [nrf_802154_core_hooks_transmission_ready, dispatchVoid_eq]
    exact map_snd_pair_trace _ _

/-- C10: Dispatch is safe.  Both loop shapes recurse structurally over the
table, so they terminate and make at most one call per table entry (the loop
bound); the hooks they call are exactly (fan-out) or an in-order selection of
(boolean) the table's pre-`NULL` candidates, so a call happens only through
an entry checked to be non-`NULL`; and a `NULL` entry ends dispatch — the
part of the table after a `NULL` entry is never examined, so no entry after
it is ever invoked. -/
theorem dispatch_loop_safety {φ : Type} (c : Config) (hooks l₁ l₂ : List (Option HookFn))
    (f : HookFn → φ → Bool) (a : φ) :
    (dispatchBool hooks f a).2.length ≤ hooks.length ∧
    (dispatchVoid hooks a).length ≤ hooks.length ∧
    List.Sublist ((dispatchBool hooks f a).2.map Prod.fst) (candidates hooks) ∧
    (dispatchVoid hooks a).map Prod.fst = candidates hooks ∧
    dispatchBool (l₁ ++ none :: l₂) f a = dispatchBool l₁ f a ∧
    dispatchVoid (l₁ ++ none :: l₂) a = dispatchVoid l₁ a ∧
    (nrf_802154_core_hooks_tx_started c f a).2.length ≤ (m_tx_started_hooks c).length ∧
    (nrf_802154_core_hooks_rx_ack_started c).length ≤ (m_rx_ack_started_hooks c).length :=
  ⟨(dispatch_length_le hooks f a).1,
   (dispatch_length_le hooks f a).2,
   dispatchBool_calls_sublist hooks f a,
   dispatchVoid_calls_eq hooks a,
   dispatchBool_null_truncates l₁ l₂ f a,
   dispatchVoid_null_truncates l₁ l₂ a,
   (dispatch_length_le (m_tx_started_hooks c) f a).1,
   (dispatch_length_le (m_rx_ack_started_hooks c) (fun _ (_ : Unit) => true) ()).2⟩

end NrfCoreHooks
